import Mathlib

/-
Verification of the rysk RV64I emulator core (src/cpu.rs, src/bus.rs,
src/dram.rs) against its natural-language specification.

The Rust source is shallowly embedded: u64 values are Nat taken mod 2^64
where the source wraps, signed reinterpretation casts (as i8/i16/i32/i64)
become explicit two's-complement conversions to Int, fallible operations
return explicit result types, and a Rust panic (index out of bounds or the
unimplemented! macro) is a distinguished `abort` outcome.
-/

namespace Rysk

/-- Two's-complement reinterpretation of a Nat as a signed `w`-bit value
(Rust's `as i8 / as i16 / as i32 / as i64` casts, which first truncate). -/
def sval (w x : Nat) : Int :=
  if x % 2 ^ w < 2 ^ (w - 1) then ((x % 2 ^ w : Nat) : Int)
  else ((x % 2 ^ w : Nat) : Int) - 2 ^ w

/-- Rust `as i8` applied to an unsigned value. -/
def toI8 (x : Nat) : Int := sval 8 x

/-- Rust `as i16` applied to an unsigned value. -/
def toI16 (x : Nat) : Int := sval 16 x

/-- Rust `as i32` applied to an unsigned value. -/
def toI32 (x : Nat) : Int := sval 32 x

/-- Rust `as i64` applied to an unsigned value (reinterpret a u64). -/
def toI64 (x : Nat) : Int := sval 64 x

/-- Rust `as u64` applied to a signed value: two's-complement bits. -/
def ofInt64 (i : Int) : Nat := (i % (2 ^ 64 : Int)).toNat

/-- Arithmetic shift right on a signed value (Rust `>>` on i8/i32/i64):
floor division by a power of two. -/
def asr (x : Int) (n : Nat) : Int := Int.fdiv x (2 ^ n)

/-- u64 `wrapping_add`. -/
def wadd (a b : Nat) : Nat := (a + b) % 2 ^ 64

/-- u64 `wrapping_sub`. -/
def wsub (a b : Nat) : Nat := (a + (2 ^ 64 - b % 2 ^ 64)) % 2 ^ 64

/-- u64 `wrapping_shl` (shift amount taken mod 64). -/
def wshl (x s : Nat) : Nat := ((x % 2 ^ 64) <<< (s % 64)) % 2 ^ 64

/-- u64 `wrapping_shr` (shift amount taken mod 64). -/
def wshr (x s : Nat) : Nat := (x % 2 ^ 64) >>> (s % 64)

/-- i64 `wrapping_shr`: arithmetic shift, amount taken mod 64. -/
def washr (x s : Nat) : Nat := ofInt64 (asr (toI64 x) (s % 64))

/-- u32 `wrapping_shl` on the low 32 bits (Rust `(x as u32).wrapping_shl`). -/
def wshl32 (x s : Nat) : Nat := ((x % 2 ^ 32) <<< (s % 32)) % 2 ^ 32

/-- u32 `wrapping_shr` on the low 32 bits (Rust `(x as u32).wrapping_shr`). -/
def wshr32 (x s : Nat) : Nat := (x % 2 ^ 32) >>> (s % 32)

/-- u64 bitwise complement (Rust `!x` on u64). -/
def not64 (x : Nat) : Nat := (x % 2 ^ 64) ^^^ (2 ^ 64 - 1)

/-- Result of a fallible memory operation: `ok`, a recoverable `Err(())`,
or a Rust panic (`abort`), which tears the process down. -/
inductive MemRes (α : Type) where
  | ok : α → MemRes α
  | err : MemRes α
  | abort : MemRes α
deriving DecidableEq

/-- Lift an Option (where `none` models a Rust panic such as an
out-of-bounds Vec index) into a MemRes. -/
def MemRes.ofOption : Option α → MemRes α
  | some a => .ok a
  | none => .abort

/-- `DRAM_SIZE` from src/dram.rs (128 MiB). -/
def DRAM_SIZE : Nat := 1024 * 1024 * 128

/-- `DRAM_BASE` from src/bus.rs. -/
def DRAM_BASE : Nat := 0x80000000

/-- The DRAM backing store of src/dram.rs: a fixed-size byte vector,
modelled as a function from vector index to byte. -/
structure Dram where
  mem : Nat → Nat

/-- `Dram::new`: a zeroed DRAM_SIZE buffer with the image bytes spliced
into the low offsets. -/
def Dram.new (code : List Nat) : Dram :=
  ⟨fun i => code.getD i 0⟩

/-- Read one byte of the backing vector; out-of-range indexing is a Rust
panic (`none`). -/
def Dram.get (d : Dram) (i : Nat) : Option Nat :=
  if i < DRAM_SIZE then some (d.mem i) else none

/-- Write one byte of the backing vector; out-of-range indexing is a Rust
panic (`none`). -/
def Dram.set (d : Dram) (i v : Nat) : Option Dram :=
  if i < DRAM_SIZE then some ⟨fun j => if j = i then v else d.mem j⟩ else none

/-- `Dram::load8`. -/
def Dram.load8 (d : Dram) (addr : Nat) : Option Nat :=
  d.get (addr - DRAM_BASE)

/-- `Dram::load16` (little-endian). -/
def Dram.load16 (d : Dram) (addr : Nat) : Option Nat := do
  let index := addr - DRAM_BASE
  let b0 ← d.get index
  let b1 ← d.get (index + 1)
  pure (b0 ||| (b1 <<< 8))

/-- `Dram::load32` (little-endian). -/
def Dram.load32 (d : Dram) (addr : Nat) : Option Nat := do
  let index := addr - DRAM_BASE
  let b0 ← d.get index
  let b1 ← d.get (index + 1)
  let b2 ← d.get (index + 2)
  let b3 ← d.get (index + 3)
  pure (b0 ||| (b1 <<< 8) ||| (b2 <<< 16) ||| (b3 <<< 24))

/-- `Dram::load64`. The byte shift amounts 38/46/54 for bytes 5/6/7 are
exactly what the source uses (instead of 40/48/56). -/
def Dram.load64 (d : Dram) (addr : Nat) : Option Nat := do
  let index := addr - DRAM_BASE
  let b0 ← d.get index
  let b1 ← d.get (index + 1)
  let b2 ← d.get (index + 2)
  let b3 ← d.get (index + 3)
  let b4 ← d.get (index + 4)
  let b5 ← d.get (index + 5)
  let b6 ← d.get (index + 6)
  let b7 ← d.get (index + 7)
  pure (b0 ||| (b1 <<< 8) ||| (b2 <<< 16) ||| (b3 <<< 24) ||| (b4 <<< 32)
    ||| (b5 <<< 38) ||| (b6 <<< 46) ||| (b7 <<< 54))

/-- `Dram::store8`. -/
def Dram.store8 (d : Dram) (addr value : Nat) : Option Dram :=
  d.set (addr - DRAM_BASE) (value &&& 0xff)

/-- `Dram::store16`. -/
def Dram.store16 (d : Dram) (addr value : Nat) : Option Dram := do
  let index := addr - DRAM_BASE
  let d1 ← d.set index (value &&& 0xff)
  d1.set (index + 1) ((value >>> 8) &&& 0xff)

/-- `Dram::store32`. -/
def Dram.store32 (d : Dram) (addr value : Nat) : Option Dram := do
  let index := addr - DRAM_BASE
  let d1 ← d.set index (value &&& 0xff)
  let d2 ← d1.set (index + 1) ((value >>> 8) &&& 0xff)
  let d3 ← d2.set (index + 2) ((value >>> 16) &&& 0xff)
  d3.set (index + 3) ((value >>> 24) &&& 0xff)

/-- `Dram::store64`. The byte shift amounts 38/46/54 for bytes 5/6/7 are
exactly what the source uses (instead of 40/48/56). -/
def Dram.store64 (d : Dram) (addr value : Nat) : Option Dram := do
  let index := addr - DRAM_BASE
  let d1 ← d.set index (value &&& 0xff)
  let d2 ← d1.set (index + 1) ((value >>> 8) &&& 0xff)
  let d3 ← d2.set (index + 2) ((value >>> 16) &&& 0xff)
  let d4 ← d3.set (index + 3) ((value >>> 24) &&& 0xff)
  let d5 ← d4.set (index + 4) ((value >>> 32) &&& 0xff)
  let d6 ← d5.set (index + 5) ((value >>> 38) &&& 0xff)
  let d7 ← d6.set (index + 6) ((value >>> 46) &&& 0xff)
  d7.set (index + 7) ((value >>> 54) &&& 0xff)

/-- `Dram::load`: dispatch on the access width; any width outside
8/16/32/64 is an error. -/
def Dram.load (d : Dram) (addr size : Nat) : MemRes Nat :=
  if size = 8 then .ofOption (d.load8 addr)
  else if size = 16 then .ofOption (d.load16 addr)
  else if size = 32 then .ofOption (d.load32 addr)
  else if size = 64 then .ofOption (d.load64 addr)
  else .err

/-- `Dram::store`: dispatch on the access width; any width outside
8/16/32/64 is an error. -/
def Dram.store (d : Dram) (addr size value : Nat) : MemRes Dram :=
  if size = 8 then .ofOption (d.store8 addr value)
  else if size = 16 then .ofOption (d.store16 addr value)
  else if size = 32 then .ofOption (d.store32 addr value)
  else if size = 64 then .ofOption (d.store64 addr value)
  else .err

/-- The bus of src/bus.rs: the single DRAM region plus the reservation
map (HashMap modelled as a function to an optional entry). -/
structure Bus where
  dram : Dram
  reservations : Nat → Option (Nat × Bool)

/-- Result of a state-mutating fallible operation: Rust's `Err(())` leaves
the partially mutated receiver behind, so `err` carries the state. -/
inductive StRes (σ : Type) where
  | ok : σ → StRes σ
  | err : σ → StRes σ
  | abort : StRes σ

/-- `Bus::load`: forwarded to DRAM at or above DRAM_BASE, error below. -/
def Bus.load (b : Bus) (addr size : Nat) : MemRes Nat :=
  if DRAM_BASE ≤ addr then b.dram.load addr size else .err

/-- `Bus::store`: below DRAM_BASE it fails; otherwise the reservation
entry for `addr` (if any) has its changed flag updated and the store is
forwarded to DRAM. -/
def Bus.store (b : Bus) (addr size value : Nat) : StRes Bus :=
  if DRAM_BASE ≤ addr then
    let rsv : Nat → Option (Nat × Bool) := fun a =>
      if a = addr then
        match b.reservations addr with
        | some (orig, changed) => some (orig, if orig ≠ value then true else changed)
        | none => none
      else b.reservations a
    match b.dram.store addr size value with
    | .ok d => .ok ⟨d, rsv⟩
    | .err => .err ⟨b.dram, rsv⟩
    | .abort => .abort
  else .err b

/-- CSR address constants from src/cpu.rs. -/
def MIP : Nat := 0x344

def MIE : Nat := 0x304

def SIP : Nat := 0x144

def SIE : Nat := 0x104

def MEDELEG : Nat := 0x302

def MIDELEG : Nat := 0x303

def RDCYCLE : Nat := 0xC00

def RDTIME : Nat := 0xC01

def INSTRET : Nat := 0xC02

/-- The CPU of src/cpu.rs: 32 general registers, pc, bus, 4096 CSR slots.
The `start` Instant is not part of the embedded state; the wall clock is
supplied to `run` as an oracle. -/
structure Cpu where
  regs : Nat → Nat
  pc : Nat
  bus : Bus
  csrs : Nat → Nat

/-- Write one general-purpose register (Rust `self.regs[r] = v`). -/
def Cpu.setReg (c : Cpu) (r v : Nat) : Cpu :=
  { c with regs := fun i => if i = r then v else c.regs i }

/-- `Cpu::new`: pc at DRAM_BASE, x2 seeded to the top of DRAM, everything
else zero, image bytes copied into DRAM. -/
def Cpu.new (code : List Nat) : Cpu :=
  { regs := fun i => if i = 2 then DRAM_BASE + DRAM_SIZE else 0
    pc := DRAM_BASE
    bus := ⟨Dram.new code, fun _ => none⟩
    csrs := fun _ => 0 }

/-- `Cpu::load_csr`: reading `sie` returns `mie & mideleg`; every other
address reads its raw slot. -/
def Cpu.load_csr (c : Cpu) (addr : Nat) : Nat :=
  if addr = SIE then c.csrs MIE &&& c.csrs MIDELEG else c.csrs addr

/-- `Cpu::store_csr`: writing `sie` updates only the `mideleg`-selected
bits of `mie`; every other address writes its raw slot. -/
def Cpu.store_csr (c : Cpu) (addr value : Nat) : Cpu :=
  if addr = SIE then
    { c with csrs := fun a =>
        if a = MIE then (c.csrs MIE &&& not64 (c.csrs MIDELEG)) ||| (value &&& c.csrs MIDELEG)
        else c.csrs a }
  else
    { c with csrs := fun a => if a = addr then value else c.csrs a }

/-- `Cpu::fetch`: a 32-bit bus load at pc. -/
def Cpu.fetch (c : Cpu) : MemRes Nat :=
  c.bus.load c.pc 32

/-- Result of `Cpu::execute`: `Ok(())`, `Err(())` (both leaving the CPU
in some state), or a Rust panic. -/
inductive ERes where
  | ok : Cpu → ERes
  | err : Cpu → ERes
  | abort : ERes

/-- Plumbing for `self.regs[rd] = f(self.bus.load(..)?)`: a bus-load error
propagates as `Err` with the CPU unchanged, a panic aborts. -/
def ldres (c : Cpu) (rd : Nat) (r : MemRes Nat) (f : Nat → Nat) : ERes :=
  match r with
  | .ok v => .ok (c.setReg rd (f v))
  | .err => .err c
  | .abort => .abort

/-- Plumbing for `self.bus.store(..)?`: the bus result (which carries the
possibly updated bus state) is folded back into the CPU. -/
def stres (c : Cpu) (r : StRes Bus) : ERes :=
  match r with
  | .ok b => .ok { c with bus := b }
  | .err b => .err { c with bus := b }
  | .abort => .abort

/-- I-type immediate as computed with `((inst as i32 as i64) >> 20) as u64`
(opcodes 0x03 and 0x1b). -/
def iImm (inst : Nat) : Nat := ofInt64 (asr (toI32 inst) 20)

/-- I-type immediate as computed with
`(((inst & 0xfff00000) as i32 as i64) >> 20) as u64` (opcodes 0x13, 0x67). -/
def iImmM (inst : Nat) : Nat := ofInt64 (asr (toI32 (inst &&& 0xfff00000)) 20)

/-- S-type immediate (opcode 0x23). -/
def sImm (inst : Nat) : Nat :=
  (ofInt64 (asr (toI32 (inst &&& 0xfe000000)) 20)) ||| ((inst >>> 7) &&& 0x1f)

/-- B-type immediate (opcode 0x63). -/
def bImm (inst : Nat) : Nat :=
  (ofInt64 (asr (toI32 (inst &&& 0x80000000)) 19)) ||| ((inst &&& 0x80) <<< 4)
    ||| ((inst >>> 20) &&& 0x7e0) ||| ((inst >>> 7) &&& 0x1e)

/-- U-type immediate `(inst & 0xfffff000) as i32 as i64 as u64`
(opcodes 0x37, 0x17). -/
def uImm (inst : Nat) : Nat := ofInt64 (toI32 (inst &&& 0xfffff000))

/-- J-type immediate (opcode 0x6f). -/
def jImm (inst : Nat) : Nat :=
  (ofInt64 (asr (toI32 (inst &&& 0x80000000)) 11)) ||| (inst &&& 0xff000)
    ||| ((inst >>> 9) &&& 0x800) ||| ((inst >>> 20) &&& 0x7fe)

/-- Decode field `opcode = inst & 0x7f`. -/
def opcodeOf (inst : Nat) : Nat := inst &&& 0x7f

/-- Decode field `rd = (inst >> 7) & 0x1f`. -/
def rdOf (inst : Nat) : Nat := (inst >>> 7) &&& 0x1f

/-- Decode field `rs1 = (inst >> 15) & 0x1f`. -/
def rs1Of (inst : Nat) : Nat := (inst >>> 15) &&& 0x1f

/-- Decode field `rs2 = (inst >> 20) & 0x1f`. -/
def rs2Of (inst : Nat) : Nat := (inst >>> 20) &&& 0x1f

/-- Decode field `funct3 = (inst >> 12) & 0x7`. -/
def funct3Of (inst : Nat) : Nat := (inst >>> 12) &&& 0x7

/-- Decode field `funct7 = (inst >> 25) & 0x7f`. -/
def funct7Of (inst : Nat) : Nat := (inst >>> 25) &&& 0x7f

/-- Decode field `csr_addr = (inst & 0xfff00000) >> 20`. -/
def csrAddrOf (inst : Nat) : Nat := (inst &&& 0xfff00000) >>> 20

/-- Rust `(cond) as u64` on a comparison: 1 when it holds, else 0. -/
def sltVal (p : Prop) [Decidable p] : Nat := if p then 1 else 0

/-- Branch target update `pc = pc.wrapping_add(imm).wrapping_sub(4)` shared
by the taken branches and jal. -/
def btaken (c : Cpu) (imm : Nat) : Cpu :=
  { c with pc := wsub (wadd c.pc imm) 4 }

/-- CSRRW arm of `Cpu::execute`: the old value is not read when rd is x0;
the source of the write is `regs[rs1]`, read before rd is overwritten. -/
def Cpu.csrrw (c : Cpu) (addr rd rs1 : Nat) : Cpu :=
  if rd ≠ 0 then (c.store_csr addr (c.regs rs1)).setReg rd (c.load_csr addr)
  else c.store_csr addr (c.regs rs1)

/-- CSRRS arm: `regs[rd] = old` always; the write `old | regs[rs1]` is
skipped when rs1 is x0, and reads `regs[rs1]` after rd was written. -/
def Cpu.csrrs (c : Cpu) (addr rd rs1 : Nat) : Cpu :=
  if rs1 ≠ 0 then
    (c.setReg rd (c.load_csr addr)).store_csr addr
      (c.load_csr addr ||| (c.setReg rd (c.load_csr addr)).regs rs1)
  else c.setReg rd (c.load_csr addr)

/-- CSRRC arm: like CSRRS with `old & regs[rs1]`. -/
def Cpu.csrrc (c : Cpu) (addr rd rs1 : Nat) : Cpu :=
  if rs1 ≠ 0 then
    (c.setReg rd (c.load_csr addr)).store_csr addr
      (c.load_csr addr &&& (c.setReg rd (c.load_csr addr)).regs rs1)
  else c.setReg rd (c.load_csr addr)

/-- CSRRWI arm: like CSRRW with the zero-extended rs1 field as source. -/
def Cpu.csrrwi (c : Cpu) (addr rd imm : Nat) : Cpu :=
  if rd ≠ 0 then (c.store_csr addr imm).setReg rd (c.load_csr addr)
  else c.store_csr addr imm

/-- CSRRSI arm: write `old | imm`, skipped when the immediate is zero. -/
def Cpu.csrrsi (c : Cpu) (addr rd imm : Nat) : Cpu :=
  if imm ≠ 0 then (c.setReg rd (c.load_csr addr)).store_csr addr (c.load_csr addr ||| imm)
  else c.setReg rd (c.load_csr addr)

/-- CSRRCI arm: write `old & imm`, skipped when the immediate is zero. -/
def Cpu.csrrci (c : Cpu) (addr rd imm : Nat) : Cpu :=
  if imm ≠ 0 then (c.setReg rd (c.load_csr addr)).store_csr addr (c.load_csr addr &&& imm)
  else c.setReg rd (c.load_csr addr)

/-- Opcode 0x03 (loads) arm of `Cpu::execute`. -/
def Cpu.execLoad (c : Cpu) (inst : Nat) : ERes :=
  if funct3Of inst = 0x0 then
    ldres c (rdOf inst) (c.bus.load (wadd (c.regs (rs1Of inst)) (iImm inst)) 8)
      (fun v => ofInt64 (toI8 v))
  else if funct3Of inst = 0x1 then
    ldres c (rdOf inst) (c.bus.load (wadd (c.regs (rs1Of inst)) (iImm inst)) 16)
      (fun v => ofInt64 (toI16 v))
  else if funct3Of inst = 0x2 then
    ldres c (rdOf inst) (c.bus.load (wadd (c.regs (rs1Of inst)) (iImm inst)) 32)
      (fun v => ofInt64 (toI32 v))
  else if funct3Of inst = 0x3 then
    ldres c (rdOf inst) (c.bus.load (wadd (c.regs (rs1Of inst)) (iImm inst)) 64)
      (fun v => ofInt64 (toI64 v))
  else if funct3Of inst = 0x4 then
    ldres c (rdOf inst) (c.bus.load (wadd (c.regs (rs1Of inst)) (iImm inst)) 8) (fun v => v)
  else if funct3Of inst = 0x5 then
    ldres c (rdOf inst) (c.bus.load (wadd (c.regs (rs1Of inst)) (iImm inst)) 16) (fun v => v)
  else if funct3Of inst = 0x6 then
    ldres c (rdOf inst) (c.bus.load (wadd (c.regs (rs1Of inst)) (iImm inst)) 32) (fun v => v)
  else .err c

/-- Opcode 0x23 (stores) arm of `Cpu::execute`. -/
def Cpu.execStore (c : Cpu) (inst : Nat) : ERes :=
  if funct3Of inst = 0x0 then
    stres c (c.bus.store (wadd (c.regs (rs1Of inst)) (sImm inst)) 8 (c.regs (rs2Of inst)))
  else if funct3Of inst = 0x1 then
    stres c (c.bus.store (wadd (c.regs (rs1Of inst)) (sImm inst)) 16 (c.regs (rs2Of inst)))
  else if funct3Of inst = 0x2 then
    stres c (c.bus.store (wadd (c.regs (rs1Of inst)) (sImm inst)) 32 (c.regs (rs2Of inst)))
  else if funct3Of inst = 0x3 then
    stres c (c.bus.store (wadd (c.regs (rs1Of inst)) (sImm inst)) 64 (c.regs (rs2Of inst)))
  else .err c

/-- Opcode 0x13 (op-imm) arm of `Cpu::execute`. -/
def Cpu.execOpImm (c : Cpu) (inst : Nat) : ERes :=
  if funct3Of inst = 0x0 then
      .ok (c.setReg (rdOf inst) (wadd (c.regs (rs1Of inst)) (iImmM inst)))
    else if funct3Of inst = 0x4 then
      .ok (c.setReg (rdOf inst) (c.regs (rs1Of inst) ^^^ iImmM inst))
    else if funct3Of inst = 0x6 then
      .ok (c.setReg (rdOf inst) (c.regs (rs1Of inst) ||| iImmM inst))
    else if funct3Of inst = 0x7 then
      .ok (c.setReg (rdOf inst) (c.regs (rs1Of inst) &&& iImmM inst))
    else if funct3Of inst = 0x1 ∧ funct7Of inst = 0x00 then
      -- the arm the source comments call slli, computing wrapping_shr
      .ok (c.setReg (rdOf inst) (wshr (c.regs (rs1Of inst)) (iImmM inst &&& 0x3f)))
    else if funct3Of inst = 0x5 ∧ funct7Of inst = 0x00 then
      -- the arm the source comments call srli, computing wrapping_shl
      .ok (c.setReg (rdOf inst) (wshl (c.regs (rs1Of inst)) (iImmM inst &&& 0x3f)))
    else if funct3Of inst = 0x5 ∧ funct7Of inst = 0x20 then
      -- srai: arithmetic shift right on the i64 reinterpretation
      .ok (c.setReg (rdOf inst) (washr (c.regs (rs1Of inst)) (iImmM inst &&& 0x3f)))
    else if funct3Of inst = 0x2 then
      .ok (c.setReg (rdOf inst) (sltVal (toI64 (c.regs (rs1Of inst)) < toI64 (iImmM inst))))
    else if funct3Of inst = 0x3 then
      .ok (c.setReg (rdOf inst) (sltVal (c.regs (rs1Of inst) < iImmM inst)))
    else .err c

/-- Opcode 0x33 (register-register op) arm of `Cpu::execute`. -/
def Cpu.execOp (c : Cpu) (inst : Nat) : ERes :=
  if funct3Of inst = 0x0 ∧ funct7Of inst = 0x0 then
      .ok (c.setReg (rdOf inst) (wadd (c.regs (rs1Of inst)) (c.regs (rs2Of inst))))
    else if funct3Of inst = 0x0 ∧ funct7Of inst = 0x20 then
      .ok (c.setReg (rdOf inst) (wsub (c.regs (rs1Of inst)) (c.regs (rs2Of inst))))
    else if funct3Of inst = 0x4 ∧ funct7Of inst = 0x0 then
      .ok (c.setReg (rdOf inst) (c.regs (rs1Of inst) ^^^ c.regs (rs2Of inst)))
    else if funct3Of inst = 0x6 ∧ funct7Of inst = 0x0 then
      .ok (c.setReg (rdOf inst) (c.regs (rs1Of inst) &&& c.regs (rs2Of inst)))
    else if funct3Of inst = 0x1 ∧ funct7Of inst = 0x0 then
      .ok (c.setReg (rdOf inst) (wshl (c.regs (rs1Of inst)) (c.regs (rs2Of inst) &&& 0x3f)))
    else if funct3Of inst = 0x5 ∧ funct7Of inst = 0x0 then
      .ok (c.setReg (rdOf inst) (wshr (c.regs (rs1Of inst)) (c.regs (rs2Of inst) &&& 0x3f)))
    else if funct3Of inst = 0x5 ∧ funct7Of inst = 0x20 then
      .ok (c.setReg (rdOf inst) (washr (c.regs (rs1Of inst)) (c.regs (rs2Of inst) &&& 0x3f)))
    else if funct3Of inst = 0x2 ∧ funct7Of inst = 0x0 then
      .ok (c.setReg (rdOf inst)
        (sltVal (toI64 (c.regs (rs1Of inst)) < toI64 (c.regs (rs2Of inst)))))
    else if funct3Of inst = 0x3 ∧ funct7Of inst = 0x0 then
      .ok (c.setReg (rdOf inst) (sltVal (c.regs (rs1Of inst) < c.regs (rs2Of inst))))
    else .err c

/-- Opcode 0x3b (register-register word op) arm of `Cpu::execute`. -/
def Cpu.execOpW (c : Cpu) (inst : Nat) : ERes :=
  if funct3Of inst = 0x0 ∧ funct7Of inst = 0x0 then
      .ok (c.setReg (rdOf inst) (ofInt64 (toI32 (wadd (c.regs (rs1Of inst)) (c.regs (rs2Of inst))))))
    else if funct3Of inst = 0x0 ∧ funct7Of inst = 0x20 then
      .ok (c.setReg (rdOf inst) (ofInt64 (toI32 (wsub (c.regs (rs1Of inst)) (c.regs (rs2Of inst))))))
    else if funct3Of inst = 0x1 ∧ funct7Of inst = 0x00 then
      .ok (c.setReg (rdOf inst)
        (ofInt64 (toI32 (wshl32 (c.regs (rs1Of inst)) (c.regs (rs2Of inst) &&& 0x1f)))))
    else if funct3Of inst = 0x5 ∧ funct7Of inst = 0x00 then
      .ok (c.setReg (rdOf inst)
        (ofInt64 (toI32 (wshr32 (c.regs (rs1Of inst)) (c.regs (rs2Of inst) &&& 0x1f)))))
    else if funct3Of inst = 0x5 ∧ funct7Of inst = 0x20 then
      .ok (c.setReg (rdOf inst)
        (ofInt64 (asr (toI32 (c.regs (rs1Of inst))) (c.regs (rs2Of inst) &&& 0x1f))))
    else .abort

/-- Opcode 0x1b (op-imm word) arm of `Cpu::execute`. -/
def Cpu.execOpImmW (c : Cpu) (inst : Nat) : ERes :=
  if funct3Of inst = 0x0 then
      .ok (c.setReg (rdOf inst) (ofInt64 (toI32 (wadd (c.regs (rs1Of inst)) (iImm inst)))))
    else if funct3Of inst = 0x1 then
      .ok (c.setReg (rdOf inst) (ofInt64 (toI32 (wshl (c.regs (rs1Of inst)) (iImm inst &&& 0x1f)))))
    else if funct3Of inst = 0x5 ∧ funct7Of inst = 0 then
      .ok (c.setReg (rdOf inst) (ofInt64 (toI32 (wshr32 (c.regs (rs1Of inst)) (iImm inst &&& 0x1f)))))
    else if funct3Of inst = 0x5 ∧ funct7Of inst = 0x20 then
      .ok (c.setReg (rdOf inst) (ofInt64 (asr (toI32 (c.regs (rs1Of inst))) ((iImm inst &&& 0x1f) % 32))))
    else .abort

/-- Opcode 0x63 (branches) arm of `Cpu::execute`. -/
def Cpu.execBranch (c : Cpu) (inst : Nat) : ERes :=
  if funct3Of inst = 0x0 then
      .ok (if c.regs (rs1Of inst) = c.regs (rs2Of inst) then btaken c (bImm inst) else c)
    else if funct3Of inst = 0x1 then
      .ok (if c.regs (rs1Of inst) ≠ c.regs (rs2Of inst) then btaken c (bImm inst) else c)
    else if funct3Of inst = 0x4 then
      .ok (if toI64 (c.regs (rs1Of inst)) < toI64 (c.regs (rs2Of inst)) then btaken c (bImm inst) else c)
    else if funct3Of inst = 0x5 then
      .ok (if toI64 (c.regs (rs1Of inst)) ≥ toI64 (c.regs (rs2Of inst)) then btaken c (bImm inst) else c)
    else if funct3Of inst = 0x6 then
      .ok (if c.regs (rs1Of inst) < c.regs (rs2Of inst) then btaken c (bImm inst) else c)
    else if funct3Of inst = 0x7 then
      .ok (if c.regs (rs1Of inst) ≥ c.regs (rs2Of inst) then btaken c (bImm inst) else c)
    else .abort

/-- Opcode 0x73 (CSR) arm of `Cpu::execute`. -/
def Cpu.execCsr (c : Cpu) (inst : Nat) : ERes :=
  if funct3Of inst = 0x1 then .ok (c.csrrw (csrAddrOf inst) (rdOf inst) (rs1Of inst))
  else if funct3Of inst = 0x2 then .ok (c.csrrs (csrAddrOf inst) (rdOf inst) (rs1Of inst))
  else if funct3Of inst = 0x3 then .ok (c.csrrc (csrAddrOf inst) (rdOf inst) (rs1Of inst))
  else if funct3Of inst = 0x5 then .ok (c.csrrwi (csrAddrOf inst) (rdOf inst) (rs1Of inst))
  else if funct3Of inst = 0x6 then .ok (c.csrrsi (csrAddrOf inst) (rdOf inst) (rs1Of inst))
  else if funct3Of inst = 0x7 then .ok (c.csrrci (csrAddrOf inst) (rdOf inst) (rs1Of inst))
  else .err c

/-- `Cpu::execute` from src/cpu.rs, arm for arm (the per-opcode bodies are
the execXXX functions above). Unknown opcodes, and unknown funct3/funct7
under opcodes 0x1b, 0x3b and 0x63, hit the `unimplemented!` macro,
i.e. abort; the other unknown sub-opcodes and a zero opcode return
`Err(())`. -/
def Cpu.execute (c : Cpu) (inst : Nat) : ERes :=
  if opcodeOf inst = 0x03 then c.execLoad inst
  else if opcodeOf inst = 0x23 then c.execStore inst
  else if opcodeOf inst = 0x13 then c.execOpImm inst
  else if opcodeOf inst = 0x33 then c.execOp inst
  else if opcodeOf inst = 0x3b then c.execOpW inst
  else if opcodeOf inst = 0x1b then c.execOpImmW inst
  else if opcodeOf inst = 0x63 then c.execBranch inst
  else if opcodeOf inst = 0x37 then
    .ok (c.setReg (rdOf inst) (uImm inst))
  else if opcodeOf inst = 0x17 then
    -- AUIPC in the source computes the immediate but assigns nothing
    .ok c
  else if opcodeOf inst = 0x6f then
    .ok (btaken (c.setReg (rdOf inst) c.pc) (jImm inst))
  else if opcodeOf inst = 0x67 then
    -- regs[rd] = pc first, then the target is computed from regs[rs1]
    .ok { c.setReg (rdOf inst) c.pc with
          pc := (wadd ((c.setReg (rdOf inst) c.pc).regs (rs1Of inst)) (iImmM inst)) &&& not64 1 }
  else if opcodeOf inst = 0x73 then c.execCsr inst
  else if opcodeOf inst = 0 then .err c
  else .abort

/-- The per-iteration bookkeeping `Cpu::run` performs between a successful
fetch and the call to execute: `pc += 4`, `cycle += 1`, `instret += 1`,
`time = seconds since start` (supplied by the oracle `t`). -/
def bookkeep (t : Nat) (c : Cpu) : Cpu :=
  { c with
    pc := wadd c.pc 4
    csrs := fun a =>
      if a = RDCYCLE then wadd (c.csrs RDCYCLE) 1
      else if a = INSTRET then wadd (c.csrs INSTRET) 1
      else if a = RDTIME then t
      else c.csrs a }

/-- Outcome of one iteration of the `Cpu::run` loop. -/
inductive StepRes where
  | cont : Cpu → StepRes
  | stop : Cpu → StepRes
  | abort : StepRes

/-- One iteration of the `Cpu::run` loop: fetch (loop exits on failure),
pre-increment pc and counters, execute (loop breaks on error), re-zero
x0, and exit if pc became zero. -/
def step (t : Nat) (c : Cpu) : StepRes :=
  match c.fetch with
  | .err => .stop c
  | .abort => .abort
  | .ok inst =>
    let c2 := bookkeep t c
    match c2.execute inst with
    | .abort => .abort
    | .err cE => .stop cE
    | .ok cO =>
      let c4 := cO.setReg 0 0
      if c4.pc = 0 then .stop c4 else .cont c4

/-- Result of `Cpu::run`: a normal return (with the final state the
harness inspects), a panic, or fuel exhaustion (an artifact of the
embedding; the source loop has no fuel bound). -/
inductive RunRes where
  | done : Cpu → RunRes
  | abort : RunRes
  | fuelout : Cpu → RunRes

/-- `Cpu::run`, fuel-indexed. `tf k` is the wall-clock second count the
k-th iteration observes. -/
def Cpu.run : Nat → (Nat → Nat) → Nat → Cpu → RunRes
  | 0, _, _, c => .fuelout c
  | fuel + 1, tf, k, c =>
    match step (tf k) c with
    | .cont c' => Cpu.run fuel tf (k + 1) c'
    | .stop c' => .done c'
    | .abort => .abort

/-- Harness observation: the value of register `r` after a completed run
of the image `code`. -/
def runRegs (fuel : Nat) (tf : Nat → Nat) (code : List Nat) (r : Nat) : Option Nat :=
  match Cpu.run fuel tf 0 (Cpu.new code) with
  | .done c => some (c.regs r)
  | _ => none

/-- Harness observation: whether running the image `code` aborts the
process by a Rust panic. -/
def runAborts (fuel : Nat) (tf : Nat → Nat) (code : List Nat) : Bool :=
  match Cpu.run fuel tf 0 (Cpu.new code) with
  | .abort => true
  | _ => false

/-- Observation helper: the value of register `r` after `execute` returns
Ok on instruction `inst` in state `c`. -/
def execRegOut (c : Cpu) (inst r : Nat) : Option Nat :=
  match c.execute inst with
  | .ok c' => some (c'.regs r)
  | _ => none

/-- Observation helper: store then load at one address/width on a fresh
DRAM (the round-trip the spec states). -/
def storeLoad (a w v : Nat) : MemRes Nat :=
  match (Dram.new []).store a w v with
  | .ok d => d.load a w
  | .err => .err
  | .abort => .abort

/-- Projection of a bus store result onto its DRAM component: what
"forwarded to DRAM" means observationally. -/
def busDram : StRes Bus → MemRes Dram
  | .ok b => .ok b.dram
  | .err _ => .err
  | .abort => .abort

/-- A failed `ldres` (bus load error) leaves the CPU unchanged. -/
theorem ldres_err_eq {c : Cpu} {rd : Nat} {r : MemRes Nat} {f : Nat → Nat} {c' : Cpu}
    (h : ldres c rd r f = .err c') : c' = c := by
  cases r <;> simp [ldres] at h
  exact h.symm

/-- `Dram::store` cannot return Err at the four legal widths. -/
theorem dram_store_ne_err {d : Dram} {addr v sz : Nat}
    (hw : sz = 8 ∨ sz = 16 ∨ sz = 32 ∨ sz = 64) :
    d.store addr sz v ≠ .err := by
  rcases hw with rfl | rfl | rfl | rfl
  · unfold Dram.store
    simp only [reduceIte, Nat.reduceEqDiff]
    cases h : d.store8 addr v <;> simp [MemRes.ofOption, h]
  · unfold Dram.store
    simp only [reduceIte, Nat.reduceEqDiff]
    cases h : d.store16 addr v <;> simp [MemRes.ofOption, h]
  · unfold Dram.store
    simp only [reduceIte, Nat.reduceEqDiff]
    cases h : d.store32 addr v <;> simp [MemRes.ofOption, h]
  · unfold Dram.store
    simp only [reduceIte, Nat.reduceEqDiff]
    cases h : d.store64 addr v <;> simp [MemRes.ofOption, h]

/-- A failed `Bus::store` at a legal width leaves the bus unchanged (the
only error path is an address below DRAM_BASE, before any mutation). -/
theorem bus_store_err_eq {b : Bus} {addr sz v : Nat} {b' : Bus}
    (hw : sz = 8 ∨ sz = 16 ∨ sz = 32 ∨ sz = 64)
    (h : Bus.store b addr sz v = .err b') : b' = b := by
  unfold Bus.store at h
  split_ifs at h with hle
  · cases hd : b.dram.store addr sz v <;> rw [hd] at h
    · exact StRes.noConfusion h
    · exact absurd hd (dram_store_ne_err hw)
    · exact StRes.noConfusion h
  · cases h; rfl

/-- A failed `stres` comes from a failed bus store, with the bus state
carried through. -/
theorem stres_err_shape {c : Cpu} {r : StRes Bus} {c' : Cpu}
    (h : stres c r = .err c') : ∃ b, r = .err b ∧ c' = { c with bus := b } := by
  cases r <;> simp [stres] at h
  · exact ⟨_, rfl, h.symm⟩

/-- A failed load instruction leaves the CPU unchanged. -/
theorem execLoad_err_eq {c : Cpu} {inst : Nat} {c' : Cpu}
    (h : c.execLoad inst = .err c') : c' = c := by
  unfold Cpu.execLoad at h
  split_ifs at h
  case _ => exact ldres_err_eq h
  case _ => exact ldres_err_eq h
  case _ => exact ldres_err_eq h
  case _ => exact ldres_err_eq h
  case _ => exact ldres_err_eq h
  case _ => exact ldres_err_eq h
  case _ => exact ldres_err_eq h
  case _ => injection h with h2; exact h2.symm

/-- A failed store instruction leaves the CPU unchanged. -/
theorem execStore_err_eq {c : Cpu} {inst : Nat} {c' : Cpu}
    (h : c.execStore inst = .err c') : c' = c := by
  unfold Cpu.execStore at h
  split_ifs at h
  case _ =>
    obtain ⟨b, hb, rfl⟩ := stres_err_shape h
    rw [bus_store_err_eq (Or.inl rfl) hb]
  case _ =>
    obtain ⟨b, hb, rfl⟩ := stres_err_shape h
    rw [bus_store_err_eq (Or.inr (Or.inl rfl)) hb]
  case _ =>
    obtain ⟨b, hb, rfl⟩ := stres_err_shape h
    rw [bus_store_err_eq (Or.inr (Or.inr (Or.inl rfl))) hb]
  case _ =>
    obtain ⟨b, hb, rfl⟩ := stres_err_shape h
    rw [bus_store_err_eq (Or.inr (Or.inr (Or.inr rfl))) hb]
  case _ => injection h with h2; exact h2.symm

/-- A failed op-imm instruction leaves the CPU unchanged. -/
theorem execOpImm_err_eq {c : Cpu} {inst : Nat} {c' : Cpu}
    (h : c.execOpImm inst = .err c') : c' = c := by
  unfold Cpu.execOpImm at h
  generalize iImmM inst = im at h
  generalize rdOf inst = rd at h
  generalize rs1Of inst = r1 at h
  generalize funct3Of inst = f3 at h
  generalize funct7Of inst = f7 at h
  split_ifs at h
  all_goals (injection h with h2; try exact h2.symm)

/-- A failed register-register op instruction leaves the CPU unchanged. -/
theorem execOp_err_eq {c : Cpu} {inst : Nat} {c' : Cpu}
    (h : c.execOp inst = .err c') : c' = c := by
  unfold Cpu.execOp at h
  generalize rdOf inst = rd at h
  generalize rs1Of inst = r1 at h
  generalize rs2Of inst = r2 at h
  generalize funct3Of inst = f3 at h
  generalize funct7Of inst = f7 at h
  split_ifs at h
  all_goals (injection h with h2; try exact h2.symm)

/-- The word-op family never returns Err. -/
theorem execOpW_err_eq {c : Cpu} {inst : Nat} {c' : Cpu}
    (h : c.execOpW inst = .err c') : c' = c := by
  unfold Cpu.execOpW at h
  generalize rdOf inst = rd at h
  generalize rs1Of inst = r1 at h
  generalize rs2Of inst = r2 at h
  generalize funct3Of inst = f3 at h
  generalize funct7Of inst = f7 at h
  split_ifs at h

/-- The word-op-imm family never returns Err. -/
theorem execOpImmW_err_eq {c : Cpu} {inst : Nat} {c' : Cpu}
    (h : c.execOpImmW inst = .err c') : c' = c := by
  unfold Cpu.execOpImmW at h
  generalize iImm inst = im at h
  generalize rdOf inst = rd at h
  generalize rs1Of inst = r1 at h
  generalize funct3Of inst = f3 at h
  generalize funct7Of inst = f7 at h
  split_ifs at h

/-- The branch family never returns Err. -/
theorem execBranch_err_eq {c : Cpu} {inst : Nat} {c' : Cpu}
    (h : c.execBranch inst = .err c') : c' = c := by
  unfold Cpu.execBranch at h
  generalize bImm inst = im at h
  generalize rs1Of inst = r1 at h
  generalize rs2Of inst = r2 at h
  generalize funct3Of inst = f3 at h
  split_ifs at h

/-- A failed CSR instruction leaves the CPU unchanged. -/
theorem execCsr_err_eq {c : Cpu} {inst : Nat} {c' : Cpu}
    (h : c.execCsr inst = .err c') : c' = c := by
  unfold Cpu.execCsr at h
  generalize csrAddrOf inst = ca at h
  generalize rdOf inst = rd at h
  generalize rs1Of inst = r1 at h
  generalize funct3Of inst = f3 at h
  split_ifs at h
  all_goals (injection h with h2; try exact h2.symm)

/-- Whenever `Cpu::execute` returns Err, the architectural state it hands
back is exactly the state it was given. -/
theorem execute_err_eq {c : Cpu} {inst : Nat} {c' : Cpu}
    (h : c.execute inst = .err c') : c' = c := by
  unfold Cpu.execute at h
  generalize opcodeOf inst = op at h
  by_cases h1 : op = 0x03
  · rw [if_pos h1] at h; exact execLoad_err_eq h
  rw [if_neg h1] at h
  by_cases h2 : op = 0x23
  · rw [if_pos h2] at h; exact execStore_err_eq h
  rw [if_neg h2] at h
  by_cases h3 : op = 0x13
  · rw [if_pos h3] at h; exact execOpImm_err_eq h
  rw [if_neg h3] at h
  by_cases h4 : op = 0x33
  · rw [if_pos h4] at h; exact execOp_err_eq h
  rw [if_neg h4] at h
  by_cases h5 : op = 0x3b
  · rw [if_pos h5] at h; exact execOpW_err_eq h
  rw [if_neg h5] at h
  by_cases h6 : op = 0x1b
  · rw [if_pos h6] at h; exact execOpImmW_err_eq h
  rw [if_neg h6] at h
  by_cases h7 : op = 0x63
  · rw [if_pos h7] at h; exact execBranch_err_eq h
  rw [if_neg h7] at h
  by_cases h8 : op = 0x37
  · rw [if_pos h8] at h; exact ERes.noConfusion h
  rw [if_neg h8] at h
  by_cases h9 : op = 0x17
  · rw [if_pos h9] at h; exact ERes.noConfusion h
  rw [if_neg h9] at h
  by_cases h10 : op = 0x6f
  · rw [if_pos h10] at h; exact ERes.noConfusion h
  rw [if_neg h10] at h
  by_cases h11 : op = 0x67
  · rw [if_pos h11] at h; exact ERes.noConfusion h
  rw [if_neg h11] at h
  by_cases h12 : op = 0x73
  · rw [if_pos h12] at h; exact execCsr_err_eq h
  rw [if_neg h12] at h
  by_cases h13 : op = 0
  · rw [if_pos h13] at h; injection h with h14; exact h14.symm
  rw [if_neg h13] at h
  exact ERes.noConfusion h

/-- When fetch succeeds and execute fails, the loop iteration stops with
the state execute handed back. -/
theorem step_exec_err {t : Nat} {c : Cpu} {inst : Nat} {cE : Cpu}
    (hf : c.fetch = .ok inst) (he : (bookkeep t c).execute inst = .err cE) :
    step t c = .stop cE := by
  simp only [step, hf, he]

/-- When fetch and execute succeed, the iteration re-zeroes x0 and then
stops exactly when pc became zero. -/
theorem step_exec_ok {t : Nat} {c : Cpu} {inst : Nat} {cO : Cpu}
    (hf : c.fetch = .ok inst) (he : (bookkeep t c).execute inst = .ok cO) :
    step t c = if (cO.setReg 0 0).pc = 0 then .stop (cO.setReg 0 0) else .cont (cO.setReg 0 0) := by
  simp only [step, hf, he]

/-- A stopping iteration makes `run` return normally with that state. -/
theorem run_stop {fuel k : Nat} {tf : Nat → Nat} {c c' : Cpu}
    (h : step (tf k) c = .stop c') : Cpu.run (fuel + 1) tf k c = .done c' := by
  simp only [Cpu.run, h]

/-- A continuing iteration unfolds one `run` loop step. -/
theorem run_cont {fuel k : Nat} {tf : Nat → Nat} {c c' : Cpu}
    (h : step (tf k) c = .cont c') : Cpu.run (fuel + 1) tf k c = Cpu.run fuel tf (k + 1) c' := by
  simp only [Cpu.run, h]

/-- One loop iteration preserves `regs[0] = 0` in every visible outcome. -/
theorem step_regs0 {t : Nat} {c c' : Cpu} (h0 : c.regs 0 = 0)
    (h : step t c = .cont c' ∨ step t c = .stop c') : c'.regs 0 = 0 := by
  cases hf : c.fetch
  case err =>
    have hs : step t c = .stop c := by simp only [step, hf]
    rcases h with h | h <;> rw [hs] at h
    · exact StepRes.noConfusion h
    · injection h with h2; rw [← h2]; exact h0
  case abort =>
    have hs : step t c = .abort := by simp only [step, hf]
    rcases h with h | h <;> rw [hs] at h <;> exact StepRes.noConfusion h
  case ok inst =>
    cases he : (bookkeep t c).execute inst
    case err cE =>
      have hs := step_exec_err hf he
      rcases h with h | h <;> rw [hs] at h
      · exact StepRes.noConfusion h
      · injection h with h2; rw [← h2, execute_err_eq he]; exact h0
    case abort =>
      have hs : step t c = .abort := by simp only [step, hf, he]
      rcases h with h | h <;> rw [hs] at h <;> exact StepRes.noConfusion h
    case ok cO =>
      have hs := step_exec_ok hf he
      by_cases hz : (cO.setReg 0 0).pc = 0
      · rw [if_pos hz] at hs
        rcases h with h | h <;> rw [hs] at h
        · exact StepRes.noConfusion h
        · injection h with h2; rw [← h2]; rfl
      · rw [if_neg hz] at hs
        rcases h with h | h <;> rw [hs] at h
        · injection h with h2; rw [← h2]; rfl
        · exact StepRes.noConfusion h

/-- A normally returning `run` preserves `regs[0] = 0` to the final state. -/
theorem run_regs0 {fuel : Nat} :
    ∀ {k : Nat} {tf : Nat → Nat} {c c' : Cpu}, c.regs 0 = 0 →
      Cpu.run fuel tf k c = .done c' → c'.regs 0 = 0 := by
  induction fuel with
  | zero =>
    intro k tf c c' _ h
    exact RunRes.noConfusion h
  | succ n ih =>
    intro k tf c c' h0 h
    cases hs : step (tf k) c
    case cont c2 =>
      rw [run_cont hs] at h
      exact ih (step_regs0 h0 (Or.inl hs)) h
    case stop c2 =>
      rw [run_stop hs] at h
      injection h with h2
      rw [← h2]
      exact step_regs0 h0 (Or.inr hs)
    case abort =>
      rw [show Cpu.run (n + 1) tf k c = .abort by simp only [Cpu.run, hs]] at h
      exact RunRes.noConfusion h

/-- Claim C1: the spec says op-imm (opcode 0x13) with funct3 0x1 / funct7
0x00 is slli (left shift with zero fill), funct3 0x5 / funct7 0x00 is srli
(logical right shift), and funct3 0x5 / funct7 0x20 is srai (arithmetic
right shift), with a 6-bit shift amount from imm & 0x3f. The code has the
first two directions swapped: on slli x5, x6, 1 with regs[6] = 2 it yields
regs[5] = 1 (a right shift) where the claim demands 4, and on srli it
yields 4 where the claim demands 1; srai behaves as claimed. This theorem
evaluates the code at those inputs. -/
theorem C1_shift_swap :
    execRegOut ((Cpu.new []).setReg 6 2) 0x00131293 5 = some 1 ∧
    execRegOut ((Cpu.new []).setReg 6 2) 0x00135293 5 = some 4 ∧
    execRegOut ((Cpu.new []).setReg 6 (2 ^ 64 - 2)) 0x40135293 5 = some (2 ^ 64 - 1) :=
  ⟨by decide, by decide, by decide⟩

/-- Claim C2: the spec says auipc (opcode 0x17) sets regs[rd] to the
instruction address plus the sign-extended upper immediate. The code's
auipc arm computes the immediate and assigns nothing: execute is the
identity on the whole CPU state, so regs[rd] keeps its old value. -/
theorem C2_auipc_noop (c : Cpu) (inst : Nat) (h : opcodeOf inst = 0x17) :
    c.execute inst = .ok c := by
  unfold Cpu.execute
  rw [h]
  rfl

theorem C2_auipc_noop_witness : (Cpu.new []).execute 0x00000517 = .ok (Cpu.new []) :=
  C2_auipc_noop (Cpu.new []) 0x00000517 rfl

/-- Claim C3: the spec says a 64-bit store/load round trip on DRAM returns
the stored value, and widths 8/16/32 return the value masked to the
width. The byte shifts 38/46/54 in both store64 and load64 never touch
bits 62 and 63, so the 64-bit round trip returns v masked to 62 bits:
2^62 comes back as 0 and all-ones comes back as 0x3FFFFFFFFFFFFFFF. The
8/16/32 round trips behave as claimed. -/
theorem C3_roundtrip_64 :
    storeLoad DRAM_BASE 64 0x4000000000000000 = .ok 0 ∧
    storeLoad DRAM_BASE 64 0xFFFFFFFFFFFFFFFF = .ok 0x3FFFFFFFFFFFFFFF ∧
    storeLoad DRAM_BASE 8 0xABCD = .ok 0xCD ∧
    storeLoad (DRAM_BASE + 5) 16 0x12345 = .ok 0x2345 ∧
    storeLoad (DRAM_BASE + 16) 32 0x100000001 = .ok 1 :=
  ⟨by decide, by decide, by decide, by decide, by decide⟩

/-- Claim C4 counterexample: the claim says an illegal opcode terminates
the run with `run` returning normally and never aborts by panicking; but
running an image whose first instruction word has the unknown opcode 0x0b
hits `unimplemented!` and aborts the process. -/
theorem C4_counterexample : runAborts 1 (fun _ => 0) [0x0b, 0, 0, 0] = true := by decide

/-- Claim C4 as amended: a zero-opcode instruction word makes execute
return an error, and whenever execute returns an error the run loop exits
and `run` returns normally with the final state inspectable; unknown
opcodes (and unknown funct3/funct7 under opcodes 0x1b/0x3b/0x63) instead
abort by panicking. -/
theorem C4_err_clean_exit :
    (∀ (c : Cpu) (inst : Nat), opcodeOf inst = 0 → c.execute inst = .err c) ∧
    (∀ (fuel k : Nat) (tf : Nat → Nat) (c cE : Cpu) (inst : Nat),
      c.fetch = .ok inst → (bookkeep (tf k) c).execute inst = .err cE →
      Cpu.run (fuel + 1) tf k c = .done cE) := by
  constructor
  · intro c inst h
    unfold Cpu.execute
    rw [h]
    rfl
  · intro fuel k tf c cE inst hf he
    exact run_stop (step_exec_err hf he)

theorem C4_err_clean_exit_witness :
    (Cpu.new []).execute 0 = .err (Cpu.new []) ∧
    Cpu.run 1 (fun _ => 0) 0 (Cpu.new [0, 0, 0, 0]) = .done (bookkeep 0 (Cpu.new [0, 0, 0, 0])) :=
  ⟨C4_err_clean_exit.1 (Cpu.new []) 0 rfl,
   C4_err_clean_exit.2 0 0 (fun _ => 0) (Cpu.new [0, 0, 0, 0]) _ 0 rfl rfl⟩

/-- Claim C5 counterexample: the claim says cycle/instret are updated
after execute, so an instruction reading instret sees the count of
instructions retired strictly before it (0 for the first instruction).
Running the single instruction csrrs x5, instret, x0 leaves regs[5] = 1,
not 0: the counters are incremented before execute. -/
theorem C5_counterexample :
    runRegs 2 (fun _ => 0) [0xF3, 0x22, 0x20, 0xC0] 5 = some 1 ∧
    runRegs 2 (fun _ => 0) [0xF3, 0x22, 0x20, 0xC0] 5 ≠ some 0 :=
  ⟨by decide, by decide⟩

/-- Claim C5 as amended: pc is incremented by 4 and cycle += 1,
instret += 1, time ← seconds all take effect before execute runs (only
the regs[0] re-zeroing follows execute), so an instruction that reads the
instret CSR (here csrrs x5, instret, x0 = 0xC02022F3) observes a count
that includes itself: old instret + 1. -/
theorem C5_counters_before_execute (t : Nat) (c : Cpu)
    (h : c.fetch = .ok 0xC02022F3) :
    (bookkeep t c).pc = wadd c.pc 4 ∧
    (bookkeep t c).csrs RDCYCLE = wadd (c.csrs RDCYCLE) 1 ∧
    (bookkeep t c).csrs INSTRET = wadd (c.csrs INSTRET) 1 ∧
    (bookkeep t c).csrs RDTIME = t ∧
    ∃ c', (step t c = .cont c' ∨ step t c = .stop c') ∧
      c'.regs 5 = wadd (c.csrs INSTRET) 1 := by
  refine ⟨rfl, rfl, rfl, rfl, ?_⟩
  have he : (bookkeep t c).execute 0xC02022F3
      = .ok ((bookkeep t c).setReg 5 ((bookkeep t c).load_csr 0xC02)) := rfl
  have hs := step_exec_ok h he
  by_cases hz : ((((bookkeep t c).setReg 5 ((bookkeep t c).load_csr 0xC02))).setReg 0 0).pc = 0
  · rw [if_pos hz] at hs
    exact ⟨_, Or.inr hs, rfl⟩
  · rw [if_neg hz] at hs
    exact ⟨_, Or.inl hs, rfl⟩

theorem C5_counters_before_execute_witness :
    (bookkeep 7 (Cpu.new [0xF3, 0x22, 0x20, 0xC0])).pc
      = wadd (Cpu.new [0xF3, 0x22, 0x20, 0xC0]).pc 4 ∧
    (bookkeep 7 (Cpu.new [0xF3, 0x22, 0x20, 0xC0])).csrs INSTRET
      = wadd ((Cpu.new [0xF3, 0x22, 0x20, 0xC0]).csrs INSTRET) 1 :=
  ⟨(C5_counters_before_execute 7 (Cpu.new [0xF3, 0x22, 0x20, 0xC0]) rfl).1,
   (C5_counters_before_execute 7 (Cpu.new [0xF3, 0x22, 0x20, 0xC0]) rfl).2.2.1⟩

/-- Claim C6: after writing v to mie (0x304) and m to mideleg (0x303),
reading sie (0x104) yields v & m; writing x to sie then leaves mie equal
to (v & ~m) | (x & m); and every CSR address other than sie is a raw
64-bit storage slot for both load_csr and store_csr. -/
theorem C6_sie_overlay (c : Cpu) (v m x : Nat)
    (_hv : v < 2 ^ 64) (_hm : m < 2 ^ 64) (_hx : x < 2 ^ 64) :
    ((c.store_csr MIE v).store_csr MIDELEG m).load_csr SIE = v &&& m ∧
    ((((c.store_csr MIE v).store_csr MIDELEG m).store_csr SIE x).csrs MIE)
      = (v &&& not64 m) ||| (x &&& m) ∧
    (∀ a, a ≠ SIE → c.load_csr a = c.csrs a) ∧
    (∀ a w, a ≠ SIE → (c.store_csr a w).csrs a = w) ∧
    (∀ a w b, a ≠ SIE → b ≠ a → (c.store_csr a w).csrs b = c.csrs b) := by
  refine ⟨rfl, rfl, ?_, ?_, ?_⟩
  · intro a ha
    unfold Cpu.load_csr
    rw [if_neg ha]
  · intro a w ha
    simp [Cpu.store_csr, ha]
  · intro a w b ha hba
    simp [Cpu.store_csr, ha, hba]

theorem C6_sie_overlay_witness :
    (((Cpu.new []).store_csr MIE 5).store_csr MIDELEG 3).load_csr SIE = 5 &&& 3 ∧
    (((((Cpu.new []).store_csr MIE 5).store_csr MIDELEG 3).store_csr SIE 9).csrs MIE)
      = (5 &&& not64 3) ||| (9 &&& 3) ∧
    ((Cpu.new []).store_csr 0x300 7).csrs 0x300 = 7 :=
  ⟨(C6_sie_overlay (Cpu.new []) 5 3 9 (by decide) (by decide) (by decide)).1,
   (C6_sie_overlay (Cpu.new []) 5 3 9 (by decide) (by decide) (by decide)).2.1,
   (C6_sie_overlay (Cpu.new []) 5 3 9 (by decide) (by decide) (by decide)).2.2.2.1
     0x300 7 (by decide)⟩

/-- Claim C7: regs[0] is 0 at construction, every loop iteration that the
harness can observe (continue or stop) re-establishes regs[0] = 0, and a
normally returning run hands the harness a state with regs[0] = 0; writes
to x0 during execute are discarded at the instruction boundary. -/
theorem C7_x0_always_zero :
    (∀ code, (Cpu.new code).regs 0 = 0) ∧
    (∀ (t : Nat) (c c' : Cpu), c.regs 0 = 0 →
      step t c = .cont c' ∨ step t c = .stop c' → c'.regs 0 = 0) ∧
    (∀ (fuel k : Nat) (tf : Nat → Nat) (c c' : Cpu), c.regs 0 = 0 →
      Cpu.run fuel tf k c = .done c' → c'.regs 0 = 0) :=
  ⟨fun _ => rfl, fun _ _ _ h0 h => step_regs0 h0 h,
   fun _ _ _ _ _ h0 h => run_regs0 h0 h⟩

theorem C7_x0_always_zero_witness : (bookkeep 0 (Cpu.new [])).regs 0 = 0 :=
  C7_x0_always_zero.2.1 0 (Cpu.new []) _ rfl (Or.inr rfl)

/-- Claim C8: bus loads and stores below DRAM_BASE fail without touching
anything; at or above DRAM_BASE they are forwarded to the DRAM (the load
result is the DRAM result, the store's DRAM outcome is the DRAM's own
outcome); and the DRAM itself errors on any width outside 8/16/32/64. -/
theorem C8_bus_decode :
    (∀ (b : Bus) (addr sz v : Nat), addr < DRAM_BASE →
      b.load addr sz = .err ∧ b.store addr sz v = .err b) ∧
    (∀ (b : Bus) (addr sz : Nat), DRAM_BASE ≤ addr →
      b.load addr sz = b.dram.load addr sz) ∧
    (∀ (b : Bus) (addr sz v : Nat), DRAM_BASE ≤ addr →
      busDram (b.store addr sz v) = b.dram.store addr sz v) ∧
    (∀ (d : Dram) (addr sz v : Nat), sz ≠ 8 → sz ≠ 16 → sz ≠ 32 → sz ≠ 64 →
      d.load addr sz = .err ∧ d.store addr sz v = .err) := by
  refine ⟨?_, ?_, ?_, ?_⟩
  · intro b addr sz v h
    constructor
    · unfold Bus.load
      rw [if_neg (not_le.mpr h)]
    · unfold Bus.store
      rw [if_neg (not_le.mpr h)]
  · intro b addr sz h
    unfold Bus.load
    rw [if_pos h]
  · intro b addr sz v h
    unfold Bus.store
    rw [if_pos h]
    cases hd : b.dram.store addr sz v <;> rfl
  · intro d addr sz v h8 h16 h32 h64
    constructor
    · unfold Dram.load
      rw [if_neg h8, if_neg h16, if_neg h32, if_neg h64]
    · unfold Dram.store
      rw [if_neg h8, if_neg h16, if_neg h32, if_neg h64]

theorem C8_bus_decode_witness :
    ((Cpu.new []).bus.load 0 8 = .err ∧ (Cpu.new []).bus.store 0 8 1 = .err (Cpu.new []).bus) ∧
    (Cpu.new []).bus.load DRAM_BASE 8 = (Cpu.new []).bus.dram.load DRAM_BASE 8 ∧
    busDram ((Cpu.new []).bus.store DRAM_BASE 8 1) = (Cpu.new []).bus.dram.store DRAM_BASE 8 1 ∧
    (Cpu.new []).bus.dram.load 0 7 = .err :=
  ⟨C8_bus_decode.1 (Cpu.new []).bus 0 8 1 (by decide),
   C8_bus_decode.2.1 (Cpu.new []).bus DRAM_BASE 8 (le_refl _),
   C8_bus_decode.2.2.1 (Cpu.new []).bus DRAM_BASE 8 1 (le_refl _),
   (C8_bus_decode.2.2.2 (Cpu.new []).bus.dram 0 7 0 (by decide) (by decide) (by decide)
     (by decide)).1⟩

/-- Claim C9: for jalr (opcode 0x67) with rd = rs1 (a register other than
x0), the link value — the pc execute sees, i.e. instruction address + 4 —
is written into the register before the jump target is computed, so the
new pc is ((instruction address + 4) + imm) & ~1 and the register's old
value has no influence on the target. -/
theorem C9_jalr_link_first (c : Cpu) (inst : Nat) (hop : opcodeOf inst = 0x67)
    (hsame : rdOf inst = rs1Of inst) (_hnz : rdOf inst ≠ 0) :
    ∃ c', c.execute inst = .ok c' ∧
      c'.pc = (wadd c.pc (iImmM inst)) &&& not64 1 ∧
      c'.regs (rdOf inst) = c.pc := by
  unfold Cpu.execute
  rw [hop]
  refine ⟨_, rfl, ?_, ?_⟩
  · show (wadd ((c.setReg (rdOf inst) c.pc).regs (rs1Of inst)) (iImmM inst)) &&& not64 1
      = (wadd c.pc (iImmM inst)) &&& not64 1
    rw [← hsame]
    simp [Cpu.setReg]
  · show (c.setReg (rdOf inst) c.pc).regs (rdOf inst) = c.pc
    simp [Cpu.setReg]

theorem C9_jalr_link_first_witness :
    ∃ c', (Cpu.new []).execute 0x008282E7 = .ok c' ∧
      c'.pc = (wadd (Cpu.new []).pc (iImmM 0x008282E7)) &&& not64 1 ∧
      c'.regs (rdOf 0x008282E7) = (Cpu.new []).pc :=
  C9_jalr_link_first (Cpu.new []) 0x008282E7 rfl rfl (by decide)

/-- Claim C10: whenever execute returns an error, the registers and every
CSR slot other than cycle (0xC00), instret (0xC02) and time (0xC01) are
unchanged from before the instruction, while pc was already advanced by 4
and cycle/instret already incremented, so the failing instruction is
counted; the loop then stops with exactly that state. -/
theorem C10_err_counting (t : Nat) (c cE : Cpu) (inst : Nat)
    (hf : c.fetch = .ok inst) (he : (bookkeep t c).execute inst = .err cE) :
    step t c = .stop cE ∧
    (∀ r, cE.regs r = c.regs r) ∧
    cE.pc = wadd c.pc 4 ∧
    cE.csrs RDCYCLE = wadd (c.csrs RDCYCLE) 1 ∧
    cE.csrs INSTRET = wadd (c.csrs INSTRET) 1 ∧
    (∀ a, a ≠ RDCYCLE → a ≠ INSTRET → a ≠ RDTIME → cE.csrs a = c.csrs a) := by
  have hE := execute_err_eq he
  subst hE
  refine ⟨step_exec_err hf he, fun r => rfl, rfl, rfl, rfl, ?_⟩
  intro a h1 h2 h3
  simp [bookkeep, h1, h2, h3]

theorem C10_err_counting_witness :
    step 0 (Cpu.new [0, 0, 0, 0]) = .stop (bookkeep 0 (Cpu.new [0, 0, 0, 0])) ∧
    (bookkeep 0 (Cpu.new [0, 0, 0, 0])).regs 31 = (Cpu.new [0, 0, 0, 0]).regs 31 ∧
    (bookkeep 0 (Cpu.new [0, 0, 0, 0])).pc = wadd (Cpu.new [0, 0, 0, 0]).pc 4 ∧
    (bookkeep 0 (Cpu.new [0, 0, 0, 0])).csrs 0x100 = (Cpu.new [0, 0, 0, 0]).csrs 0x100 :=
  have H := C10_err_counting 0 (Cpu.new [0, 0, 0, 0]) _ 0 rfl rfl
  ⟨H.1, H.2.1 31, H.2.2.1, H.2.2.2.2.2 0x100 (by decide) (by decide) (by decide)⟩

end Rysk
